import Mathlib

/-!
Shallow embedding of the DockerS3LogDriver repository (src/s3.go).

The Go program is a Docker log-driver plugin with three pieces:
`main` (flag parsing and registration), `S3Logger.Log` (fetch an S3
object keyed by the container id and stream its lines to the daemon),
and `S3Logger.Capabilities` (a constant pair of booleans).

Modelling choices:
- Byte streams are `List Char` (one `Char` per byte).
- The AWS client is abstract: a function from bucket and key to either
  an error message or the object's stream.  A successful stream is the
  bytes it delivers plus a flag saying whether the read fails after
  delivering them (`readErr`), which models a mid-scan network error.
- The request context is a monotone cancellation signal: `doneFrom = some n`
  means the n-th per-line poll (0-based) and every later one observes
  `ctx.Done()`; `none` means the context is never cancelled.
- `LogLine.MarshalJSON` is framework code outside this repository, so the
  marshalling step is a parameter `marshalErr : LogLine → Option String`
  giving the error it returns on each record, if any.
- `time.Now()` is a parameter `clock : Nat → Nat` giving the timestamp
  observed at the k-th loop iteration.
- The host-provided channel `config.Logs` is modelled by the list of
  emitted lines in the result; the deferred `reader.Body.Close()` by a
  count of close calls; the single `GetObjectWithContext` call by a count
  of fetch calls.
-/

/-- Bytes of a stream, one Char per byte. -/
abbrev Bytes := List Char

/-- Result of a successful GetObject call: the bytes the stream delivers,
and whether the underlying read then fails (true) or reaches a clean
end of stream (false). -/
structure GetObjectResult where
  delivered : Bytes
  readErr : Bool
deriving DecidableEq

/-- Abstract S3 client: GetObjectWithContext is one read-only operation
keyed by bucket and key, returning a byte stream or an error message. -/
structure S3Client where
  getObject : String → String → Except String GetObjectResult

/-- The logger struct from src/s3.go: an S3 client and a bucket name. -/
structure S3Logger where
  s3Client : S3Client
  bucket : String

/-- Fields of the logger.Message request used by Log: the source tag and
the container identifier. -/
structure Message where
  Source : String
  ContainerID : String
deriving DecidableEq

/-- The record sent to the daemon for each scanned line. -/
structure LogLine where
  Line : Bytes
  Source : String
  Partial : Bool
  Timestamp : Nat
deriving DecidableEq

/-- Errors Log can return: a fetch failure wrapping the S3 error, or a
marshalling failure wrapping the encoder's error. -/
inductive LogError where
  | fetchError (cause : String)
  | encodingError (cause : String)
deriving DecidableEq

/-- Observable outcome of one Log call: the lines pushed on the host
channel in order, the returned error (none models a nil return), how many
times the object was fetched, and how many times the body was closed. -/
structure LogResult where
  emitted : List LogLine
  ret : Option LogError
  fetchCalls : Nat
  bodyCloses : Nat

/-- Split a byte stream at every newline character, keeping empty
segments, as the scanner's split function does. -/
def splitOnNl (data : Bytes) : List Bytes :=
  data.foldr
    (fun c acc =>
      if c = '\n' then [] :: acc
      else
        match acc with
        | [] => [[c]]
        | a :: as => (c :: a) :: as)
    [[]]

/-- Drop one trailing carriage return, as bufio's dropCR does. -/
def dropCR (l : Bytes) : Bytes :=
  if l.getLast? = some '\r' then l.dropLast else l

/-- Tokens produced by bufio.Scanner with the default ScanLines split over
the delivered bytes: one token per newline-terminated record, a final
unterminated record also yields a token, an empty stream or a trailing
newline yields no extra empty token, and each token loses one trailing
carriage return. -/
def scanLines (data : Bytes) : List Bytes :=
  let parts := splitOnNl data
  let parts := if parts.getLast? = some [] then parts.dropLast else parts
  parts.map dropCR

/-- Whether the k-th per-line poll of ctx.Done() observes cancellation:
the context becomes done at poll index doneFrom and stays done. -/
def ctxDone (doneFrom : Option Nat) (k : Nat) : Bool :=
  match doneFrom with
  | none => false
  | some n => decide (n ≤ k)

/-- The configLine record built for a scanned token: the text, the
container id as source, partial always false, and the current time. -/
def mkConfigLine (text : Bytes) (containerID : String) (ts : Nat) : LogLine :=
  { Line := text, Source := containerID, Partial := false, Timestamp := ts }

/-- The scan loop of Log over the scanner's tokens, starting at poll
index k: per token it builds the record, runs the marshalling check
(returning the wrapped encoding error on failure), polls the context
(returning nil when done), and otherwise emits the record and continues.
Returns the emitted lines and the function's return value. -/
def logLoop (containerID : String) (marshalErr : LogLine → Option String)
    (doneFrom : Option Nat) (clock : Nat → Nat) :
    Nat → List Bytes → List LogLine × Option LogError
  | _, [] => ([], none)
  | k, t :: ts =>
    let configLine := mkConfigLine t containerID (clock k)
    match marshalErr configLine with
    | some e =>
      ([], some (LogError.encodingError ("error marshalling log line: " ++ e)))
    | none =>
      if ctxDone doneFrom k then ([], none)
      else
        let r := logLoop containerID marshalErr doneFrom clock (k + 1) ts
        (configLine :: r.1, r.2)

/-- The Log method from src/s3.go: a request with a non-empty source tag
is skipped with a nil return; otherwise the object keyed by the container
id is fetched from the configured bucket, a fetch failure returns the
wrapped error with nothing emitted, and a fetched stream is scanned by
the loop with the body closed once by the deferred call. -/
def S3Logger.Log (l : S3Logger) (doneFrom : Option Nat)
    (marshalErr : LogLine → Option String) (clock : Nat → Nat)
    (config : Message) : LogResult :=
  if config.Source ≠ "" then
    { emitted := [], ret := none, fetchCalls := 0, bodyCloses := 0 }
  else
    match l.s3Client.getObject l.bucket config.ContainerID with
    | Except.error e =>
      { emitted := []
        ret := some (LogError.fetchError ("failed to get object from S3: " ++ e))
        fetchCalls := 1, bodyCloses := 0 }
    | Except.ok obj =>
      let r := logLoop config.ContainerID marshalErr doneFrom clock 0
        (scanLines obj.delivered)
      { emitted := r.1, ret := r.2, fetchCalls := 1, bodyCloses := 1 }

/-- The capability pair reported to the daemon. -/
structure Capabilities where
  ReadLogs : Bool
  ReadConfig : Bool
deriving DecidableEq

/-- The Capabilities method from src/s3.go: both flags false. -/
def S3Logger.Capabilities (_l : S3Logger) : Capabilities :=
  { ReadLogs := false, ReadConfig := false }

/-- Outcome of process startup: either print a message to standard output
and exit with the given status, or proceed to construct the storage
client and register the plugin with the given bucket. -/
inductive MainStep where
  | exitWithMessage (stdout : String) (status : Nat)
  | proceedToServe (bucket : String)
deriving DecidableEq

/-- Flag parsing for -s3-bucket: the provided value, or the empty-string
default when the flag is absent. -/
def parseBucketFlag (provided : Option String) : String :=
  provided.getD ""

/-- Startup logic of main before serving: an empty bucket name prints
a message and exits with status 1, before any client construction or
registration; otherwise the process proceeds to serve. -/
def mainStartup (s3Bucket : String) : MainStep :=
  if s3Bucket = "" then MainStep.exitWithMessage "Please provide an S3 bucket name" 1
  else MainStep.proceedToServe s3Bucket

/-- Lines emitted by an uninterrupted run of the loop from poll index k:
one record per token, in order, timestamped by the clock at its index. -/
def emitAll (containerID : String) (clock : Nat → Nat) :
    Nat → List Bytes → List LogLine
  | _, [] => []
  | k, t :: ts => mkConfigLine t containerID (clock k) :: emitAll containerID clock (k + 1) ts

theorem emitAll_map_line (c : String) (clock : Nat → Nat) :
    ∀ (k : Nat) (ts : List Bytes), (emitAll c clock k ts).map LogLine.Line = ts := by
  intro k ts
  induction ts generalizing k with
  | nil => simp [emitAll]
  | cons t ts ih => simp [emitAll, mkConfigLine, ih]

theorem emitAll_length (c : String) (clock : Nat → Nat) :
    ∀ (k : Nat) (ts : List Bytes), (emitAll c clock k ts).length = ts.length := by
  intro k ts
  induction ts generalizing k with
  | nil => simp [emitAll]
  | cons t ts ih => simp [emitAll, ih]

theorem logLoop_no_cancel (c : String) (m : LogLine → Option String)
    (clock : Nat → Nat) (hm : ∀ line, m line = none) :
    ∀ (k : Nat) (ts : List Bytes),
      logLoop c m none clock k ts = (emitAll c clock k ts, none) := by
  intro k ts
  induction ts generalizing k with
  | nil => simp [logLoop, emitAll]
  | cons t ts ih => simp [logLoop, emitAll, hm, ctxDone, ih]

theorem logLoop_cancel_at (c : String) (m : LogLine → Option String)
    (clock : Nat → Nat) (n : Nat) (hm : ∀ line, m line = none) :
    ∀ (k : Nat) (ts : List Bytes),
      logLoop c m (some n) clock k ts = (emitAll c clock k (ts.take (n - k)), none) := by
  intro k ts
  induction ts generalizing k with
  | nil => simp [logLoop, emitAll]
  | cons t ts ih =>
    by_cases h : n ≤ k
    · have h0 : n - k = 0 := Nat.sub_eq_zero_of_le h
      simp [logLoop, hm, ctxDone, h, h0, emitAll]
    · have h1 : n - k = (n - (k + 1)) + 1 := by omega
      simp [logLoop, hm, ctxDone, h, h1, emitAll, ih]

theorem logLoop_ret_none (c : String) (m : LogLine → Option String)
    (dF : Option Nat) (clock : Nat → Nat) (hm : ∀ line, m line = none)
    (k : Nat) (ts : List Bytes) :
    (logLoop c m dF clock k ts).2 = none := by
  rcases dF with _ | n
  · simp [logLoop_no_cancel c m clock hm]
  · simp [logLoop_cancel_at c m clock n hm]

theorem logLoop_source_partial (c : String) (m : LogLine → Option String)
    (dF : Option Nat) (clock : Nat → Nat) :
    ∀ (k : Nat) (ts : List Bytes) (line : LogLine),
      line ∈ (logLoop c m dF clock k ts).1 →
      line.Source = c ∧ line.Partial = false := by
  intro k ts
  induction ts generalizing k with
  | nil => simp [logLoop]
  | cons t ts ih =>
    intro line hline
    rcases hmq : m (mkConfigLine t c (clock k)) with _ | e
    · by_cases hd : ctxDone dF k
      · simp [logLoop, hmq, hd] at hline
      · simp [logLoop, hmq, hd] at hline
        rcases hline with h | h
        · subst h
          exact ⟨rfl, rfl⟩
        · exact ih (k + 1) line h
    · simp [logLoop, hmq] at hline

theorem logLoop_encoding (c : String) (m : LogLine → Option String)
    (clock : Nat → Nat) (t : Bytes) (e : String) :
    ∀ (pre : List Bytes) (k : Nat) (post : List Bytes),
      (∀ line : LogLine, line.Line ∈ pre → m line = none) →
      m (mkConfigLine t c (clock (k + pre.length))) = some e →
      logLoop c m none clock k (pre ++ t :: post) =
        (emitAll c clock k pre,
         some (LogError.encodingError ("error marshalling log line: " ++ e))) := by
  intro pre
  induction pre with
  | nil =>
    intro k post hpre ht
    simp only [List.length_nil, Nat.add_zero] at ht
    simp [logLoop, ht, emitAll]
  | cons p pre ih =>
    intro k post hpre ht
    have hp : m (mkConfigLine p c (clock k)) = none := by
      apply hpre
      simp [mkConfigLine]
    have ht2 : m (mkConfigLine t c (clock ((k + 1) + pre.length))) = some e := by
      have harith : (k + 1) + pre.length = k + (p :: pre).length := by
        simp [List.length_cons]
        omega
      rw [harith]
      exact ht
    have hrec := ih (k + 1) post (fun line hl => hpre line (by simp [hl])) ht2
    simp [logLoop, hp, ctxDone, emitAll, hrec]

/-- Fixture: the byte content of the spec's scenario object. -/
def testContent : Bytes := "line1\nline2\nline3".data

/-- Fixture: a client whose GetObject always returns the given result. -/
def testClient (r : Except String GetObjectResult) : S3Client :=
  { getObject := fun _ _ => r }

/-- Fixture: a logger over the scenario bucket with a constant client. -/
def testLogger (r : Except String GetObjectResult) : S3Logger :=
  { s3Client := testClient r, bucket := "logs-test" }

/-- Fixture: the marshalling step that never fails. -/
def noMarshalErr : LogLine → Option String := fun _ => none

/-- Fixture: a constant clock. -/
def zeroClock : Nat → Nat := fun _ => 0

/-- Fixture: the scenario request, empty source tag and container abc123. -/
def testMsg : Message := { Source := "", ContainerID := "abc123" }

/-- C1: for every request with empty source tag whose fetch succeeds (with
the never-failing marshalling step and no cancellation), the number of
emitted LogLine records equals the number of newline-delimited records in
the fetched object's bytes, and their texts appear in source order. -/
theorem c1_emits_every_record_in_order (l : S3Logger)
    (marshalErr : LogLine → Option String) (clock : Nat → Nat)
    (config : Message) (obj : GetObjectResult)
    (hs : config.Source = "")
    (hg : l.s3Client.getObject l.bucket config.ContainerID = Except.ok obj)
    (hm : ∀ line, marshalErr line = none) :
    (l.Log none marshalErr clock config).emitted.length =
      (scanLines obj.delivered).length ∧
    (l.Log none marshalErr clock config).emitted.map LogLine.Line =
      scanLines obj.delivered := by
  simp [S3Logger.Log, hs, hg, logLoop_no_cancel _ _ _ hm, emitAll_length,
    emitAll_map_line]

/-- Witness for C1 at the spec's scenario: bucket logs-test, container
abc123, object bytes line1, line2, line3 separated by newlines; the three
records come out in order. -/
theorem c1_emits_every_record_in_order_witness :
    scanLines testContent = ["line1".data, "line2".data, "line3".data] ∧
    ((testLogger (Except.ok ⟨testContent, false⟩)).Log none noMarshalErr
        zeroClock testMsg).emitted.length = (scanLines testContent).length ∧
    ((testLogger (Except.ok ⟨testContent, false⟩)).Log none noMarshalErr
        zeroClock testMsg).emitted.map LogLine.Line = scanLines testContent := by
  refine ⟨by decide, ?_⟩
  exact c1_emits_every_record_in_order (testLogger (Except.ok ⟨testContent, false⟩))
    noMarshalErr zeroClock testMsg ⟨testContent, false⟩ rfl rfl (fun _ => rfl)

/-- C2: if the per-line poll observes cancellation after N lines have been
emitted (with the never-failing marshalling step and more content still
unread), Log returns nil and exactly the first N records were emitted. -/
theorem c2_cancellation_stops_emission (l : S3Logger) (N : Nat)
    (marshalErr : LogLine → Option String) (clock : Nat → Nat)
    (config : Message) (obj : GetObjectResult)
    (hs : config.Source = "")
    (hg : l.s3Client.getObject l.bucket config.ContainerID = Except.ok obj)
    (hm : ∀ line, marshalErr line = none)
    (hN : N < (scanLines obj.delivered).length) :
    (l.Log (some N) marshalErr clock config).ret = none ∧
    (l.Log (some N) marshalErr clock config).emitted.length = N ∧
    (l.Log (some N) marshalErr clock config).emitted.map LogLine.Line =
      (scanLines obj.delivered).take N := by
  have hc := logLoop_cancel_at config.ContainerID marshalErr clock N hm 0
    (scanLines obj.delivered)
  refine ⟨?_, ?_, ?_⟩ <;>
    simp [S3Logger.Log, hs, hg, hc, emitAll_length, emitAll_map_line]
  omega

/-- Witness for C2: cancellation observed at the second poll (N = 1) on
the scenario object leaves exactly one emitted record and a nil return. -/
theorem c2_cancellation_stops_emission_witness :
    ((testLogger (Except.ok ⟨testContent, false⟩)).Log (some 1) noMarshalErr
        zeroClock testMsg).ret = none ∧
    ((testLogger (Except.ok ⟨testContent, false⟩)).Log (some 1) noMarshalErr
        zeroClock testMsg).emitted.length = 1 ∧
    ((testLogger (Except.ok ⟨testContent, false⟩)).Log (some 1) noMarshalErr
        zeroClock testMsg).emitted.map LogLine.Line =
      (scanLines testContent).take 1 :=
  c2_cancellation_stops_emission (testLogger (Except.ok ⟨testContent, false⟩)) 1
    noMarshalErr zeroClock testMsg ⟨testContent, false⟩ rfl rfl (fun _ => rfl)
    (by decide)

/-- C3: for every request with empty source tag whose fetch fails, Log
returns the wrapped fetch error, emits nothing, and made exactly one
fetch attempt (no retry). -/
theorem c3_fetch_failure_is_fatal (l : S3Logger) (doneFrom : Option Nat)
    (marshalErr : LogLine → Option String) (clock : Nat → Nat)
    (config : Message) (e : String)
    (hs : config.Source = "")
    (hg : l.s3Client.getObject l.bucket config.ContainerID = Except.error e) :
    (l.Log doneFrom marshalErr clock config).emitted = [] ∧
    (l.Log doneFrom marshalErr clock config).ret =
      some (LogError.fetchError ("failed to get object from S3: " ++ e)) ∧
    (l.Log doneFrom marshalErr clock config).fetchCalls = 1 := by
  simp [S3Logger.Log, hs, hg]

/-- Witness for C3: a missing object produces the wrapped error, zero
emitted lines, one fetch attempt. -/
theorem c3_fetch_failure_is_fatal_witness :
    ((testLogger (Except.error "NoSuchKey")).Log none noMarshalErr zeroClock
        testMsg).emitted = [] ∧
    ((testLogger (Except.error "NoSuchKey")).Log none noMarshalErr zeroClock
        testMsg).ret =
      some (LogError.fetchError ("failed to get object from S3: " ++ "NoSuchKey")) ∧
    ((testLogger (Except.error "NoSuchKey")).Log none noMarshalErr zeroClock
        testMsg).fetchCalls = 1 :=
  c3_fetch_failure_is_fatal (testLogger (Except.error "NoSuchKey")) none
    noMarshalErr zeroClock testMsg "NoSuchKey" rfl rfl

/-- C4: every LogLine emitted by a Log call carries the request's
container id as its source and partial = false. -/
theorem c4_source_is_container_partial_false (l : S3Logger)
    (doneFrom : Option Nat) (marshalErr : LogLine → Option String)
    (clock : Nat → Nat) (config : Message) (line : LogLine)
    (h : line ∈ (l.Log doneFrom marshalErr clock config).emitted) :
    line.Source = config.ContainerID ∧ line.Partial = false := by
  by_cases hs : config.Source = ""
  · rcases hg : l.s3Client.getObject l.bucket config.ContainerID with e | obj
    · simp [S3Logger.Log, hs, hg] at h
    · have h2 : line ∈ (logLoop config.ContainerID marshalErr doneFrom clock 0
          (scanLines obj.delivered)).1 := by
        simpa [S3Logger.Log, hs, hg] using h
      exact logLoop_source_partial config.ContainerID marshalErr doneFrom clock 0
        (scanLines obj.delivered) line h2
  · simp [S3Logger.Log, hs] at h

/-- Witness for C4: the first record of the scenario run carries source
abc123 and partial false. -/
theorem c4_source_is_container_partial_false_witness :
    (mkConfigLine "line1".data "abc123" 0).Source = testMsg.ContainerID ∧
    (mkConfigLine "line1".data "abc123" 0).Partial = false :=
  c4_source_is_container_partial_false
    (testLogger (Except.ok ⟨testContent, false⟩)) none noMarshalErr zeroClock
    testMsg (mkConfigLine "line1".data "abc123" 0) (by decide)

/-- C5: a request with a non-empty source tag emits nothing, performs no
fetch, and returns nil. -/
theorem c5_nonempty_source_is_noop (l : S3Logger) (doneFrom : Option Nat)
    (marshalErr : LogLine → Option String) (clock : Nat → Nat)
    (config : Message)
    (h : config.Source ≠ "") :
    (l.Log doneFrom marshalErr clock config).emitted = [] ∧
    (l.Log doneFrom marshalErr clock config).ret = none ∧
    (l.Log doneFrom marshalErr clock config).fetchCalls = 0 := by
  simp [S3Logger.Log, h]

/-- Witness for C5: a request tagged stdout is a silent no-op even though
the object exists. -/
theorem c5_nonempty_source_is_noop_witness :
    ((testLogger (Except.ok ⟨testContent, false⟩)).Log none noMarshalErr
        zeroClock { Source := "stdout", ContainerID := "abc123" }).emitted = [] ∧
    ((testLogger (Except.ok ⟨testContent, false⟩)).Log none noMarshalErr
        zeroClock { Source := "stdout", ContainerID := "abc123" }).ret = none ∧
    ((testLogger (Except.ok ⟨testContent, false⟩)).Log none noMarshalErr
        zeroClock { Source := "stdout", ContainerID := "abc123" }).fetchCalls = 0 :=
  c5_nonempty_source_is_noop (testLogger (Except.ok ⟨testContent, false⟩)) none
    noMarshalErr zeroClock { Source := "stdout", ContainerID := "abc123" }
    (by decide)

/-- Fixture: a marshalling step that fails with boom exactly on records
whose text is line2. -/
def failOnLine2 : LogLine → Option String :=
  fun line => if line.Line = "line2".data then some "boom" else none

/-- C6: if marshalling succeeds on the records before position i of the
scanner's tokens and fails on the record at position i, Log returns the
wrapped encoding error and emits exactly the records before i; the
failing record and everything after it are not emitted. -/
theorem c6_marshal_failure_terminates (l : S3Logger)
    (marshalErr : LogLine → Option String) (clock : Nat → Nat)
    (config : Message) (obj : GetObjectResult)
    (pre : List Bytes) (t : Bytes) (post : List Bytes) (e : String)
    (hs : config.Source = "")
    (hg : l.s3Client.getObject l.bucket config.ContainerID = Except.ok obj)
    (hsplit : scanLines obj.delivered = pre ++ t :: post)
    (hpre : ∀ line : LogLine, line.Line ∈ pre → marshalErr line = none)
    (ht : marshalErr (mkConfigLine t config.ContainerID (clock pre.length)) =
      some e) :
    (l.Log none marshalErr clock config).ret =
      some (LogError.encodingError ("error marshalling log line: " ++ e)) ∧
    (l.Log none marshalErr clock config).emitted.map LogLine.Line = pre := by
  have ht0 : marshalErr (mkConfigLine t config.ContainerID
      (clock (0 + pre.length))) = some e := by
    rw [Nat.zero_add]
    exact ht
  have he := logLoop_encoding config.ContainerID marshalErr clock t e pre 0 post
    hpre ht0
  simp [S3Logger.Log, hs, hg, hsplit, he, emitAll_map_line]

/-- Witness for C6: on the scenario object with marshalling failing at
line2, only line1 is emitted and the wrapped boom error is returned. -/
theorem c6_marshal_failure_terminates_witness :
    ((testLogger (Except.ok ⟨testContent, false⟩)).Log none failOnLine2
        zeroClock testMsg).ret =
      some (LogError.encodingError ("error marshalling log line: " ++ "boom")) ∧
    ((testLogger (Except.ok ⟨testContent, false⟩)).Log none failOnLine2
        zeroClock testMsg).emitted.map LogLine.Line = ["line1".data] :=
  c6_marshal_failure_terminates (testLogger (Except.ok ⟨testContent, false⟩))
    failOnLine2 zeroClock testMsg ⟨testContent, false⟩
    ["line1".data] "line2".data ["line3".data] "boom" rfl rfl (by decide)
    (fun line hl => by
      simp only [List.mem_singleton] at hl
      simp only [failOnLine2, hl]
      decide)
    (by decide)

/-- C7: after a successful open, a stream whose read fails mid-scan after
delivering some bytes gives exactly the same Log outcome as a stream
that ends cleanly with those bytes — the scanner's error is never
consulted — and with the never-failing marshalling step the return value
is nil either way. -/
theorem c7_scanner_error_never_consulted (l1 l2 : S3Logger) (d : Bytes)
    (doneFrom : Option Nat) (marshalErr : LogLine → Option String)
    (clock : Nat → Nat) (config : Message)
    (hs : config.Source = "")
    (hg1 : l1.s3Client.getObject l1.bucket config.ContainerID =
      Except.ok ⟨d, true⟩)
    (hg2 : l2.s3Client.getObject l2.bucket config.ContainerID =
      Except.ok ⟨d, false⟩)
    (hm : ∀ line, marshalErr line = none) :
    l1.Log doneFrom marshalErr clock config =
      l2.Log doneFrom marshalErr clock config ∧
    (l1.Log doneFrom marshalErr clock config).ret = none := by
  constructor
  · simp [S3Logger.Log, hs, hg1, hg2]
  · simp [S3Logger.Log, hs, hg1,
      logLoop_ret_none config.ContainerID marshalErr doneFrom clock hm]

/-- Witness for C7: the scenario bytes with a failing tail read give the
same outcome as a clean stream, and a nil return. -/
theorem c7_scanner_error_never_consulted_witness :
    (testLogger (Except.ok ⟨testContent, true⟩)).Log none noMarshalErr
        zeroClock testMsg =
      (testLogger (Except.ok ⟨testContent, false⟩)).Log none noMarshalErr
        zeroClock testMsg ∧
    ((testLogger (Except.ok ⟨testContent, true⟩)).Log none noMarshalErr
        zeroClock testMsg).ret = none :=
  c7_scanner_error_never_consulted (testLogger (Except.ok ⟨testContent, true⟩))
    (testLogger (Except.ok ⟨testContent, false⟩)) testContent none noMarshalErr
    zeroClock testMsg rfl rfl rfl (fun _ => rfl)

/-- C8: Capabilities is a pure constant: every call on every logger
returns the pair with both flags false, so the value is the same across
the process lifetime. -/
theorem c8_capabilities_constant (l l2 : S3Logger) :
    S3Logger.Capabilities l = { ReadLogs := false, ReadConfig := false } ∧
    S3Logger.Capabilities l = S3Logger.Capabilities l2 :=
  ⟨rfl, rfl⟩

/-- C9: whenever the object is successfully opened, the body is closed
exactly once, on every exit path (any cancellation schedule and any
marshalling behaviour). -/
theorem c9_body_closed_exactly_once (l : S3Logger) (doneFrom : Option Nat)
    (marshalErr : LogLine → Option String) (clock : Nat → Nat)
    (config : Message) (obj : GetObjectResult)
    (hs : config.Source = "")
    (hg : l.s3Client.getObject l.bucket config.ContainerID = Except.ok obj) :
    (l.Log doneFrom marshalErr clock config).bodyCloses = 1 := by
  simp [S3Logger.Log, hs, hg]

/-- Witness for C9 on the three exit paths: normal exhaustion, immediate
cancellation, and marshalling failure each close the body once. -/
theorem c9_body_closed_exactly_once_witness :
    ((testLogger (Except.ok ⟨testContent, false⟩)).Log none noMarshalErr
        zeroClock testMsg).bodyCloses = 1 ∧
    ((testLogger (Except.ok ⟨testContent, false⟩)).Log (some 0) noMarshalErr
        zeroClock testMsg).bodyCloses = 1 ∧
    ((testLogger (Except.ok ⟨testContent, false⟩)).Log none failOnLine2
        zeroClock testMsg).bodyCloses = 1 :=
  ⟨c9_body_closed_exactly_once (testLogger (Except.ok ⟨testContent, false⟩))
      none noMarshalErr zeroClock testMsg ⟨testContent, false⟩ rfl rfl,
    c9_body_closed_exactly_once (testLogger (Except.ok ⟨testContent, false⟩))
      (some 0) noMarshalErr zeroClock testMsg ⟨testContent, false⟩ rfl rfl,
    c9_body_closed_exactly_once (testLogger (Except.ok ⟨testContent, false⟩))
      none failOnLine2 zeroClock testMsg ⟨testContent, false⟩ rfl rfl⟩

/-- C10: with the -s3-bucket flag absent the parsed bucket is empty and
startup prints the message to standard output and exits with status 1 —
by construction of MainStep this is distinct from proceeding to build
the client and register. -/
theorem c10_missing_bucket_flag_exits :
    parseBucketFlag none = "" ∧
    mainStartup (parseBucketFlag none) =
      MainStep.exitWithMessage "Please provide an S3 bucket name" 1 :=
  ⟨rfl, rfl⟩
